import Mathlib

/-!
# Chat client submission handler (`public/script.js`)

A shallow embedding of the `submit` listener of `public/script.js` together with
the page state it reads and writes, and proofs of its transcript, busy-flag and
placeholder properties.

Modelling conventions.

* JavaScript strings are Lean `String`s.  Every code point that `trim` removes
  lies in the Basic Multilingual Plane, so trimming code points and trimming
  UTF-16 code units agree.
* The handler is an `async` function with two suspension points
  (`await fetch(...)` and `await response.json()`).  A suspended invocation is
  recorded in `ChatState.suspended`; the settlement of the awaited promise is an
  `Event` that resumes it.  Nothing in the state type bounds the number of
  suspended invocations.
* A DOM message element is referred to by its position among the children of
  the chat box, which are only ever appended.
* `marked.parse` is an external library, a pure transform of text; it is a
  parameter `markedParse`.
* The `result` field of a response body, when present, is a string.
* In `submitHandler` all page elements the script looks up exist, so the DOM
  writes of the handler are total; `submitHandlerOn` is the handler on a page
  where the chat box may be missing, and `submitHandlerOn true` is
  `submitHandler`.  Effects without a trace in the state (`preventDefault`,
  scrolling, focus, console output) and the theme switcher are left out.
-/

namespace ChatClient

/-! ## Strings -/

/-- Code points removed by `String.prototype.trim`: the ECMAScript `WhiteSpace`
and `LineTerminator` productions. -/
def isJsWhiteSpace (c : Char) : Bool :=
  let n := c.toNat
  n == 0x09 || n == 0x0A || n == 0x0B || n == 0x0C || n == 0x0D || n == 0x20 ||
  n == 0xA0 || n == 0x1680 || (decide (0x2000 ≤ n) && decide (n ≤ 0x200A)) ||
  n == 0x2028 || n == 0x2029 || n == 0x202F || n == 0x205F || n == 0x3000 ||
  n == 0xFEFF

/-- The method `String.prototype.trim`, on a list of code points. -/
def trimChars (cs : List Char) : List Char :=
  ((cs.dropWhile isJsWhiteSpace).reverse.dropWhile isJsWhiteSpace).reverse

/-- The method `String.prototype.trim`. -/
def jsTrim (s : String) : String :=
  ⟨trimChars s.data⟩

/-! ## Data model -/

/-- An entry of the `conversation` array: `{ role, text }`. -/
structure Turn where
  role : String
  text : String
deriving DecidableEq, Repr

/-- What a `.content` wrapper holds, by the property it was assigned through. -/
inductive Content
  | text (s : String)
  | html (s : String)
deriving DecidableEq, Repr

/-- A `div.message` child of the chat box: its class list and the content of its
`.content` wrapper. -/
structure MessageElement where
  classes : List String
  content : Content
deriving DecidableEq, Repr

/-- A call of `fetch`: the URL and the options object, with the body kept as the
`conversation` array that `JSON.stringify({ conversation })` serialises. -/
structure Request where
  url : String
  method : String
  contentType : String
  body : List Turn
deriving DecidableEq, Repr

/-- The `await` at which an invocation of the handler is suspended. -/
inductive Stage
  | awaitingFetch
  | awaitingJson
deriving DecidableEq, Repr

/-- A suspended invocation of the handler: its local `thinkingMessageElement`
(a position in the chat box) and the `await` it waits at. -/
structure Suspended where
  thinkingMessageElement : Nat
  stage : Stage
deriving DecidableEq, Repr

/-- The page state the handler reads and writes. -/
structure ChatState where
  conversation : List Turn
  isFetching : Bool
  chatBox : List MessageElement
  userInputValue : String
  userInputDisabled : Bool
  sendButtonDisabled : Bool
  sendButtonHtml : String
  requests : List Request
  suspended : List Suspended
deriving DecidableEq, Repr

/-- The `sendIcon` constant. -/
def sendIcon : String := "&#10148;"

/-- The `loadingIcon` constant. -/
def loadingIcon : String := "..."

/-- The state once `DOMContentLoaded` has run: nothing said, nothing in flight. -/
def init : ChatState where
  conversation := []
  isFetching := false
  chatBox := []
  userInputValue := ""
  userInputDisabled := false
  sendButtonDisabled := false
  sendButtonHtml := sendIcon
  requests := []
  suspended := []

/-- How the promise returned by `fetch` settles: it rejects, or it fulfils with
a response whose `ok` flag is given. -/
inductive FetchSettled
  | rejected
  | fulfilled (ok : Bool)
deriving DecidableEq, Repr

/-- A truthy parsed body, as far as the handler inspects it: the value of its
`result` property, `none` when the property is missing. -/
structure ResponseData where
  result : Option String
deriving DecidableEq, Repr

/-- How the promise returned by `response.json()` settles: it rejects, or it
fulfils with `data`, where `none` is a falsy body such as `null`. -/
inductive JsonSettled
  | rejected
  | fulfilled (data : Option ResponseData)
deriving DecidableEq, Repr

/-- What can happen to the page: the form is submitted with the given text in
the input field, or the promise awaited by the suspended invocation at position
`i` settles. -/
inductive Event
  | submit (value : String)
  | fetchSettled (i : Nat) (r : FetchSettled)
  | jsonSettled (i : Nat) (r : JsonSettled)
deriving DecidableEq, Repr

/-- How a stretch of the `try` block ends: by falling out of the block, by an
exception, or at the next `await`. -/
inductive Completion
  | normal
  | thrown
  | await (stage : Stage)
deriving DecidableEq, Repr

/-! ## DOM helpers -/

/-- Apply `f` to the element at position `i`, if there is one. -/
def updateAt {α : Type} (f : α → α) : List α → Nat → List α
  | [], _ => []
  | a :: as, 0 => f a :: as
  | a :: as, i + 1 => a :: updateAt f as i

/-- Assign the content of the `.content` wrapper of message `h`. -/
def setContent (h : Nat) (c : Content) (s : ChatState) : ChatState :=
  { s with chatBox := updateAt (fun m => { m with content := c }) s.chatBox h }

/-- The `classList.add` method on one element. -/
def MessageElement.addClass (cls : String) (m : MessageElement) : MessageElement :=
  if cls ∈ m.classes then m else { m with classes := m.classes ++ [cls] }

/-- The `classList.add` method on message `h`. -/
def classListAdd (h : Nat) (cls : String) (s : ChatState) : ChatState :=
  { s with chatBox := updateAt (MessageElement.addClass cls) s.chatBox h }

/-- The function `addMessageToChatBox(role, content, type)`; it returns the created
element. -/
def addMessageToChatBox (role content type : String) (s : ChatState) : Nat × ChatState :=
  let contentWrapper := if type = "html" then Content.html content else Content.text content
  let messageElement : MessageElement :=
    { classes := ["message", role ++ "-message"], content := contentWrapper }
  (s.chatBox.length, { s with chatBox := s.chatBox ++ [messageElement] })

/-! ## The submit handler -/

/-- The handler from its entry to `await fetch(...)`. -/
def submitHandler (s : ChatState) : ChatState :=
  if s.isFetching then s
  else
    let userMessage := jsTrim s.userInputValue
    if userMessage = "" then s
    else
      let s := { s with
        isFetching := true
        userInputDisabled := true
        sendButtonDisabled := true
        sendButtonHtml := loadingIcon }
      let s := (addMessageToChatBox "user" userMessage "text" s).2
      let s := { s with conversation := s.conversation ++ [Turn.mk "user" userMessage] }
      let s := { s with userInputValue := "" }
      let created := addMessageToChatBox "bot" "Thinking..." "text" s
      let thinkingMessageElement := created.1
      let s := created.2
      let s := { s with requests := s.requests ++
        [Request.mk "/api/chat" "POST" "application/json" s.conversation] }
      { s with suspended := ⟨thinkingMessageElement, .awaitingFetch⟩ :: s.suspended }

/-- The value of `data && data.result` when it is truthy. -/
def truthyResult : Option ResponseData → Option String
  | some ⟨some r⟩ => if r = "" then none else some r
  | _ => none

/-- The `try` block from the settlement of `fetch` to the next `await` or the
end of the block. -/
def tryAfterFetch (thinking : Nat) (r : FetchSettled) (s : ChatState) : ChatState × Completion :=
  match r with
  | .rejected => (s, .thrown)
  | .fulfilled true => (s, .await .awaitingJson)
  | .fulfilled false =>
    let s := setContent thinking (.text "Failed to get response from server.") s
    let hasError := true
    let s := if hasError then classListAdd thinking "error" s else s
    (s, .normal)

/-- The `try` block from the settlement of `response.json()` to its end. -/
def tryAfterJson (markedParse : String → String) (thinking : Nat) (r : JsonSettled)
    (s : ChatState) : ChatState × Completion :=
  match r with
  | .rejected => (s, .thrown)
  | .fulfilled data =>
    let branch : ChatState × Bool :=
      match truthyResult data with
      | some result =>
        let botResponseHtml := markedParse result
        let s := setContent thinking (.html botResponseHtml) s
        ({ s with conversation := s.conversation ++ [Turn.mk "model" result] }, false)
      | none =>
        (setContent thinking (.text "Sorry, no response received.") s, true)
    let s := branch.1
    let hasError := branch.2
    let s := if hasError then classListAdd thinking "error" s else s
    (s, .normal)

/-- The `catch` block. -/
def catchBlock (thinking : Nat) (s : ChatState) : ChatState :=
  classListAdd thinking "error"
    (setContent thinking (.text "Failed to get response from server.") s)

/-- The `finally` block. -/
def finallyBlock (s : ChatState) : ChatState :=
  { s with
    isFetching := false
    userInputDisabled := false
    sendButtonDisabled := false
    sendButtonHtml := sendIcon }

/-- What follows a stretch of the `try` block: `finally` after a normal end,
`catch` then `finally` after an exception, suspension at an `await`. -/
def complete (thinking : Nat) : ChatState × Completion → ChatState
  | (s, .normal) => finallyBlock s
  | (s, .thrown) => finallyBlock (catchBlock thinking s)
  | (s, .await stage) => { s with suspended := ⟨thinking, stage⟩ :: s.suspended }

/-- One event.  A settlement that finds no suspended invocation at position `i`,
or finds it at the other `await`, cannot occur and changes nothing. -/
def step (markedParse : String → String) (s : ChatState) : Event → ChatState
  | .submit value => submitHandler { s with userInputValue := value }
  | .fetchSettled i r =>
    match s.suspended[i]? with
    | some ⟨thinking, .awaitingFetch⟩ =>
      complete thinking (tryAfterFetch thinking r { s with suspended := s.suspended.eraseIdx i })
    | _ => s
  | .jsonSettled i r =>
    match s.suspended[i]? with
    | some ⟨thinking, .awaitingJson⟩ =>
      complete thinking
        (tryAfterJson markedParse thinking r { s with suspended := s.suspended.eraseIdx i })
    | _ => s

/-- A sequence of events, oldest first. -/
def run (markedParse : String → String) (s : ChatState) (es : List Event) : ChatState :=
  es.foldl (step markedParse) s

/-! ## Submission cycles -/

/-- How the endpoint call of one cycle ends, by the path it takes through the
`try` block. -/
inductive Outcome
  | fetchRejected
  | nonSuccess
  | jsonRejected
  | success (data : Option ResponseData)
deriving DecidableEq, Repr

/-- The settlements that make up an outcome, addressed to the invocation
suspended last. -/
def Outcome.events : Outcome → List Event
  | .fetchRejected => [.fetchSettled 0 .rejected]
  | .nonSuccess => [.fetchSettled 0 (.fulfilled false)]
  | .jsonRejected => [.fetchSettled 0 (.fulfilled true), .jsonSettled 0 .rejected]
  | .success data => [.fetchSettled 0 (.fulfilled true), .jsonSettled 0 (.fulfilled data)]

/-- The result text of an outcome that is a successful response with a
non-empty `result`. -/
def Outcome.resultText : Outcome → Option String
  | .success data => truthyResult data
  | _ => none

/-- A full cycle: the handler runs on the state, then its endpoint call ends
with the given outcome. -/
def runCycle (markedParse : String → String) (s : ChatState) (o : Outcome) : ChatState :=
  run markedParse (submitHandler s) o.events

/-- The element rendered for the message of the user. -/
def userElement (t : String) : MessageElement :=
  { classes := ["message", "user-message"], content := .text t }

/-- The request `fetch` is called with. -/
def chatRequest (body : List Turn) : Request :=
  { url := "/api/chat", method := "POST", contentType := "application/json", body := body }

/-- The placeholder as `submitHandler` renders it. -/
def thinkingElement : MessageElement :=
  { classes := ["message", "bot-message"], content := .text "Thinking..." }

/-- The placeholder at the end of a cycle, by outcome, as `runCycle_eq` proves it to be. -/
def finalPlaceholder (markedParse : String → String) : Outcome → MessageElement
  | .fetchRejected | .nonSuccess | .jsonRejected =>
    { classes := ["message", "bot-message", "error"],
      content := .text "Failed to get response from server." }
  | .success data =>
    match truthyResult data with
    | some R => { classes := ["message", "bot-message"], content := .html (markedParse R) }
    | none =>
      { classes := ["message", "bot-message", "error"],
        content := .text "Sorry, no response received." }

/-! ## Properties of transcripts and traces -/

/-- Every model turn of a transcript directly follows a user turn. -/
def ModelFollowsUser (conv : List Turn) : Prop :=
  ∀ (i : Nat) (t : Turn), conv[i]? = some t → t.role = "model" →
    ∃ (j : Nat) (u : Turn), i = j + 1 ∧ conv[j]? = some u ∧ u.role = "user"

/-- Where a turn comes from in a sequence of events: a user turn holds the trimmed,
non-empty text of a submit; a model turn holds the non-empty `result` of a parsed body,
as received. -/
def TurnFrom (es : List Event) (t : Turn) : Prop :=
  t.text ≠ "" ∧
    ((t.role = "user" ∧ jsTrim t.text = t.text ∧
        ∃ x : String, Event.submit x ∈ es ∧ t.text = jsTrim x) ∨
      (t.role = "model" ∧
        ∃ i : Nat, Event.jsonSettled i (.fulfilled (some ⟨some t.text⟩)) ∈ es))

/-- The invariant of the states reached from `init` by the events `es`: idle with nothing
suspended, or busy with one invocation suspended and a user turn last in the transcript;
model turns follow user turns; every turn of the transcript comes from `es`. -/
def Inv (es : List Event) (s : ChatState) : Prop :=
  ((s.isFetching = false ∧ s.suspended = []) ∨
    (s.isFetching = true ∧ ∃ k, s.suspended = [k] ∧
      ∃ (S : List Turn) (t : String), s.conversation = S ++ [⟨"user", t⟩])) ∧
  ModelFollowsUser s.conversation ∧
  ∀ t ∈ s.conversation, TurnFrom es t

/-- Every turn of every request body issued so far comes from `es`. -/
def RequestsFrom (es : List Event) (s : ChatState) : Prop :=
  ∀ q ∈ s.requests, ∀ t ∈ q.body, TurnFrom es t

/-! ## Sample inputs -/

/-- A renderer to evaluate examples with. -/
def sampleRenderer (r : String) : String :=
  if r = "**Hi**" then "<p><strong>Hi</strong></p>" else "<p>" ++ r ++ "</p>"

/-- The initial page with `Hello` typed into the input field. -/
def helloState : ChatState :=
  { init with userInputValue := "Hello" }

/-- The initial page with only blanks typed into the input field. -/
def blankState : ChatState :=
  { init with userInputValue := "   " }

/-- Two exchanges: `Hello` answered by `**Hi**`, then `Again` with the call rejected. -/
def sampleTrace : List Event :=
  [.submit " Hello ", .fetchSettled 0 (.fulfilled true),
    .jsonSettled 0 (.fulfilled (some ⟨some "**Hi**"⟩)),
    .submit "Again", .submit "dropped", .fetchSettled 0 .rejected]

/-! ## The handler on a page that may lack the chat box

Of the elements the script looks up, `chatBox` is the one whose absence lets the
handler run past line 75: without `chatForm`, `themeToggle` or the submit button the
listener is never registered (lines 6, 27 and 38 throw first), and without `userInput`
line 72 throws before any write.  With `chatBox` being `null`, `chatBox.appendChild` on
line 61 throws inside the call of line 80, which is outside the `try` block. -/

/-- The function `addMessageToChatBox` where `chatBoxFound` tells whether
`document.getElementById('chat-box')` returned an element: if it returned `null`, line 61
throws, with the page as it was, since lines 48 to 60 build detached elements. -/
def addMessageToChatBoxOn (chatBoxFound : Bool) (role content type : String) (s : ChatState) :
    Except ChatState (Nat × ChatState) :=
  if chatBoxFound then .ok (addMessageToChatBox role content type s) else .error s

/-- The handler from its entry to `await fetch(...)`, with the exceptions of lines 80 and
84 explicit.  The result `.error s` is an exit by an exception thrown before the `try`
block, leaving the page in state `s`: neither `catch` nor `finally` runs.  The result
`.ok s` is a return at a guard or the suspension at the call. -/
def submitHandlerOn (chatBoxFound : Bool) (s : ChatState) : Except ChatState ChatState :=
  if s.isFetching then .ok s
  else
    let userMessage := jsTrim s.userInputValue
    if userMessage = "" then .ok s
    else
      let s := { s with
        isFetching := true
        userInputDisabled := true
        sendButtonDisabled := true
        sendButtonHtml := loadingIcon }
      match addMessageToChatBoxOn chatBoxFound "user" userMessage "text" s with
      | .error s => .error s
      | .ok rendered =>
        let s := rendered.2
        let s := { s with conversation := s.conversation ++ [Turn.mk "user" userMessage] }
        let s := { s with userInputValue := "" }
        match addMessageToChatBoxOn chatBoxFound "bot" "Thinking..." "text" s with
        | .error s => .error s
        | .ok created =>
          let thinkingMessageElement := created.1
          let s := created.2
          let s := { s with requests := s.requests ++
            [Request.mk "/api/chat" "POST" "application/json" s.conversation] }
          .ok { s with suspended := ⟨thinkingMessageElement, .awaitingFetch⟩ :: s.suspended }

/-- A full cycle on such a page: the state the handler exits in when it throws before
the `try` block, else the state after the settlements of the outcome. -/
def runCycleOn (chatBoxFound : Bool) (markedParse : String → String) (s : ChatState)
    (o : Outcome) : ChatState :=
  match submitHandlerOn chatBoxFound s with
  | .error s => s
  | .ok s => run markedParse s o.events

/-- The page of `helloState` after the handler threw at line 61: the writes of lines 75
to 78 are done, nothing else is. -/
def stuckState : ChatState :=
  { helloState with
    isFetching := true
    userInputDisabled := true
    sendButtonDisabled := true
    sendButtonHtml := loadingIcon }

/-! ## Auxiliary lemmas -/

theorem trimChars_eq_nil_of_all {cs : List Char} (h : ∀ c ∈ cs, isJsWhiteSpace c = true) :
    trimChars cs = [] := by
  have h1 : cs.dropWhile isJsWhiteSpace = [] := List.dropWhile_eq_nil_iff.mpr h
  simp [trimChars, h1]

theorem dropWhile_fixed_of_isPrefix {p : Char → Bool} {l pre : List Char}
    (hl : l.dropWhile p = l) (hpre : pre <+: l) : pre.dropWhile p = pre := by
  cases pre with
  | nil => rfl
  | cons a t =>
    obtain ⟨r, hr⟩ := hpre
    subst hr
    by_cases hpa : p a = true
    · have hlen := (List.dropWhile_sublist (l := t ++ r) p).length_le
      have h2 : (t ++ r).dropWhile p = a :: (t ++ r) := by
        simpa [List.dropWhile_cons, hpa] using hl
      rw [h2] at hlen
      simp at hlen
    · simp [List.dropWhile_cons, hpa]

theorem trimChars_idem (cs : List Char) : trimChars (trimChars cs) = trimChars cs := by
  have hr : ∀ l : List Char, (l.reverse.dropWhile isJsWhiteSpace).reverse
      = l.rdropWhile isJsWhiteSpace := fun l => rfl
  unfold trimChars
  rw [hr, hr]
  have hd : ((cs.dropWhile isJsWhiteSpace).rdropWhile isJsWhiteSpace).dropWhile isJsWhiteSpace
      = (cs.dropWhile isJsWhiteSpace).rdropWhile isJsWhiteSpace :=
    dropWhile_fixed_of_isPrefix (List.dropWhile_idempotent _ _) ( List.rdropWhile_prefix _ _)
  rw [hd, List.rdropWhile_idempotent]

theorem jsTrim_idem (s : String) : jsTrim (jsTrim s) = jsTrim s := by
  simp [jsTrim, trimChars_idem]

theorem jsTrim_eq_empty_of_all {x : String} (h : ∀ c ∈ x.data, isJsWhiteSpace c = true) :
    jsTrim x = "" := by
  simp [jsTrim, trimChars_eq_nil_of_all h]

theorem updateAt_append_pair {α : Type} (f : α → α) (l : List α) (a b : α) :
    updateAt f (l ++ [a, b]) (l.length + 1) = l ++ [a, f b] := by
  induction l with
  | nil => rfl
  | cons x xs ih => simp [updateAt, ih]

theorem submitHandler_accepted (s : ChatState) (hidle : s.isFetching = false)
    (ht : jsTrim s.userInputValue ≠ "") :
    submitHandler s =
      { conversation := s.conversation ++ [⟨"user", jsTrim s.userInputValue⟩]
        isFetching := true
        chatBox := s.chatBox ++ [userElement (jsTrim s.userInputValue), thinkingElement]
        userInputValue := ""
        userInputDisabled := true
        sendButtonDisabled := true
        sendButtonHtml := loadingIcon
        requests := s.requests ++
          [chatRequest (s.conversation ++ [⟨"user", jsTrim s.userInputValue⟩])]
        suspended := ⟨s.chatBox.length + 1, .awaitingFetch⟩ :: s.suspended } := by
  simp [submitHandler, hidle, ht, addMessageToChatBox, userElement, thinkingElement, chatRequest]

theorem runCycle_eq (markedParse : String → String) (s : ChatState) (o : Outcome)
    (hidle : s.isFetching = false) (ht : jsTrim s.userInputValue ≠ "") :
    runCycle markedParse s o =
      { conversation := s.conversation ++ [⟨"user", jsTrim s.userInputValue⟩] ++
          (match o.resultText with
            | some R => [⟨"model", R⟩]
            | none => [])
        isFetching := false
        chatBox := s.chatBox ++
          [userElement (jsTrim s.userInputValue), finalPlaceholder markedParse o]
        userInputValue := ""
        userInputDisabled := false
        sendButtonDisabled := false
        sendButtonHtml := sendIcon
        requests := s.requests ++
          [chatRequest (s.conversation ++ [⟨"user", jsTrim s.userInputValue⟩])]
        suspended := s.suspended } := by
  rw [runCycle, submitHandler_accepted s hidle ht]
  cases o with
  | fetchRejected =>
    simp [Outcome.events, run, step, complete, tryAfterFetch, catchBlock, finallyBlock,
      setContent, classListAdd, updateAt_append_pair, MessageElement.addClass, thinkingElement,
      finalPlaceholder, Outcome.resultText]
  | nonSuccess =>
    simp [Outcome.events, run, step, complete, tryAfterFetch, catchBlock, finallyBlock,
      setContent, classListAdd, updateAt_append_pair, MessageElement.addClass, thinkingElement,
      finalPlaceholder, Outcome.resultText]
  | jsonRejected =>
    simp [Outcome.events, run, step, complete, tryAfterFetch, tryAfterJson, catchBlock,
      finallyBlock, setContent, classListAdd, updateAt_append_pair, MessageElement.addClass,
      thinkingElement, finalPlaceholder, Outcome.resultText]
  | success data =>
    cases hres : truthyResult data with
    | none =>
      simp [Outcome.events, run, step, complete, tryAfterFetch, tryAfterJson, catchBlock,
        finallyBlock, setContent, classListAdd, updateAt_append_pair, MessageElement.addClass,
        thinkingElement, finalPlaceholder, Outcome.resultText, hres]
    | some R =>
      simp [Outcome.events, run, step, complete, tryAfterFetch, tryAfterJson, catchBlock,
        finallyBlock, setContent, classListAdd, updateAt_append_pair, MessageElement.addClass,
        thinkingElement, finalPlaceholder, Outcome.resultText, hres]
theorem getElem?_append_pair {α : Type} (l : List α) (a b : α) :
    (l ++ [a, b])[l.length + 1]? = some b := by
  induction l with
  | nil => rfl
  | cons x xs ih => simpa using ih

theorem resultText_eq_none_iff (o : Outcome) :
    o.resultText = none ↔ ∀ R : String, R ≠ "" → o ≠ .success (some ⟨some R⟩) := by
  cases o with
  | fetchRejected => simp [Outcome.resultText]
  | nonSuccess => simp [Outcome.resultText]
  | jsonRejected => simp [Outcome.resultText]
  | success data =>
    rcases data with _ | ⟨_ | r⟩
    · simp [Outcome.resultText, truthyResult]
    · simp [Outcome.resultText, truthyResult]
    · by_cases hr : r = ""
      · subst hr
        simp [Outcome.resultText, truthyResult]
        intro R hR h
        exact hR h.symm
      · simp [Outcome.resultText, truthyResult, hr]

theorem resultText_success (R : String) (hR : R ≠ "") :
    (Outcome.success (some ⟨some R⟩)).resultText = some R := by
  simp [Outcome.resultText, truthyResult, hR]

theorem submitHandler_busy (s : ChatState) (hbusy : s.isFetching = true) :
    submitHandler s = s := by
  simp [submitHandler, hbusy]

theorem runCycle_isFetching (markedParse : String → String) (s : ChatState) (o : Outcome)
    (hidle : s.isFetching = false) (ht : jsTrim s.userInputValue ≠ "") :
    (runCycle markedParse s o).isFetching = false := by
  rw [runCycle_eq markedParse s o hidle ht]

theorem TurnFrom.mono {es : List Event} {t : Turn} (e : Event) (h : TurnFrom es t) :
    TurnFrom (es ++ [e]) t := by
  obtain ⟨h1, h2⟩ := h
  refine ⟨h1, ?_⟩
  rcases h2 with ⟨hr, ht, x, hx, hxe⟩ | ⟨hr, i, hi⟩
  · exact Or.inl ⟨hr, ht, x, List.mem_append_left _ hx, hxe⟩
  · exact Or.inr ⟨hr, i, List.mem_append_left _ hi⟩

theorem ModelFollowsUser.push_user {conv : List Turn} (h : ModelFollowsUser conv) (t : String) :
    ModelFollowsUser (conv ++ [⟨"user", t⟩]) := by
  intro i u hi hu
  rcases Nat.lt_or_ge i conv.length with hlt | hge
  · rw [List.getElem?_append_left hlt] at hi
    obtain ⟨j, v, hj, hv, hvu⟩ := h i u hi hu
    refine ⟨j, v, hj, ?_, hvu⟩
    rw [List.getElem?_append_left (by omega)]
    exact hv
  · rw [List.getElem?_append_right hge] at hi
    rcases Nat.eq_zero_or_pos (i - conv.length) with h0 | hpos
    · rw [h0] at hi
      simp at hi
      subst hi
      simp at hu
    · obtain ⟨n, hn⟩ : ∃ n, i - conv.length = n + 1 := ⟨i - conv.length - 1, by omega⟩
      rw [hn] at hi
      simp at hi

theorem ModelFollowsUser.push_model {S : List Turn} {t : String}
    (h : ModelFollowsUser (S ++ [⟨"user", t⟩])) (R : String) :
    ModelFollowsUser ((S ++ [⟨"user", t⟩]) ++ [⟨"model", R⟩]) := by
  intro i u hi hu
  rcases Nat.lt_or_ge i (S ++ [(⟨"user", t⟩ : Turn)]).length with hlt | hge
  · rw [List.getElem?_append_left hlt] at hi
    obtain ⟨j, v, hj, hv, hvu⟩ := h i u hi hu
    refine ⟨j, v, hj, ?_, hvu⟩
    rw [List.getElem?_append_left (by omega)]
    exact hv
  · rw [List.getElem?_append_right hge] at hi
    rcases Nat.eq_zero_or_pos (i - (S ++ [(⟨"user", t⟩ : Turn)]).length) with h0 | hpos
    · refine ⟨S.length, ⟨"user", t⟩, ?_, ?_, rfl⟩
      · simp at h0 hge ⊢
        omega
      · rw [List.getElem?_append_left (by simp)]
        simp
    · obtain ⟨n, hn⟩ : ∃ n, i - (S ++ [(⟨"user", t⟩ : Turn)]).length = n + 1 :=
        ⟨i - (S ++ [(⟨"user", t⟩ : Turn)]).length - 1, by omega⟩
      rw [hn] at hi
      simp at hi

theorem run_snoc (markedParse : String → String) (s : ChatState) (es : List Event) (e : Event) :
    run markedParse s (es ++ [e]) = step markedParse (run markedParse s es) e := by
  simp [run, List.foldl_append]

theorem inv_init : Inv [] init := by
  refine ⟨Or.inl ⟨rfl, rfl⟩, ?_, ?_⟩
  · intro i t hi
    simp [init] at hi
  · intro t ht
    simp [init] at ht

theorem inv_submit (es : List Event) (s : ChatState) (x : String) (h : Inv es s) :
    Inv (es ++ [.submit x]) (submitHandler { s with userInputValue := x }) := by
  obtain ⟨hb, hm, ht⟩ := h
  by_cases hbusy : s.isFetching = true
  · rw [submitHandler_busy { s with userInputValue := x } hbusy]
    exact ⟨hb, hm, fun t htm => (ht t htm).mono _⟩
  · have hidle : s.isFetching = false := by simpa using hbusy
    by_cases hx : jsTrim x = ""
    · have : submitHandler { s with userInputValue := x } = { s with userInputValue := x } := by
        simp [submitHandler, hidle, hx]
      rw [this]
      exact ⟨hb, hm, fun t htm => (ht t htm).mono _⟩
    · rw [submitHandler_accepted { s with userInputValue := x } hidle hx]
      have hs : s.suspended = [] := by
        rcases hb with ⟨_, h2⟩ | ⟨h1, _⟩
        · exact h2
        · rw [hidle] at h1; cases h1
      refine ⟨Or.inr ⟨rfl, ⟨s.chatBox.length + 1, .awaitingFetch⟩, by simp [hs], s.conversation,
        jsTrim x, rfl⟩, hm.push_user _, ?_⟩
      intro t htm
      simp only [List.mem_append, List.mem_singleton] at htm
      rcases htm with htm | rfl
      · exact (ht t htm).mono _
      · exact ⟨hx, Or.inl ⟨rfl, jsTrim_idem x, x, by simp, rfl⟩⟩

theorem inv_fetchSettled (markedParse : String → String) (es : List Event) (s : ChatState)
    (i : Nat) (r : FetchSettled) (h : Inv es s) :
    Inv (es ++ [.fetchSettled i r]) (step markedParse s (.fetchSettled i r)) := by
  obtain ⟨hb, hm, ht⟩ := h
  have hkeep : Inv (es ++ [.fetchSettled i r]) s :=
    ⟨hb, hm, fun t htm => (ht t htm).mono _⟩
  rcases hb with ⟨h1, h2⟩ | ⟨h1, k, hk, S, u, hc⟩
  · simpa [step, h2] using hkeep
  · obtain ⟨th, stage⟩ := k
    cases i with
    | succ n => simpa [step, hk] using hkeep
    | zero =>
      cases stage with
      | awaitingJson => simpa [step, hk] using hkeep
      | awaitingFetch =>
        have htm : ∀ t ∈ s.conversation, TurnFrom (es ++ [.fetchSettled 0 r]) t :=
          fun t htm => (ht t htm).mono _
        cases r with
        | rejected =>
          refine ⟨Or.inl ?_, ?_, ?_⟩ <;>
            (simp [step, hk, complete, tryAfterFetch, catchBlock, finallyBlock, setContent,
              classListAdd] <;> assumption)
        | fulfilled ok =>
          cases ok with
          | true =>
            refine ⟨Or.inr ⟨?_, ⟨th, .awaitingJson⟩, ?_, S, u, ?_⟩, ?_, ?_⟩ <;>
              (simp [step, hk, complete, tryAfterFetch] <;> assumption)
          | false =>
            refine ⟨Or.inl ?_, ?_, ?_⟩ <;>
              (simp [step, hk, complete, tryAfterFetch, finallyBlock, setContent, classListAdd] <;>
                assumption)

theorem truthyResult_eq_some {data : Option ResponseData} {R : String}
    (h : truthyResult data = some R) : data = some ⟨some R⟩ ∧ R ≠ "" := by
  rcases data with _ | ⟨_ | r⟩
  · simp [truthyResult] at h
  · simp [truthyResult] at h
  · by_cases hr : r = ""
    · simp [truthyResult, hr] at h
    · simp [truthyResult, hr] at h
      subst h
      exact ⟨rfl, hr⟩

theorem inv_jsonSettled (markedParse : String → String) (es : List Event) (s : ChatState)
    (i : Nat) (r : JsonSettled) (h : Inv es s) :
    Inv (es ++ [.jsonSettled i r]) (step markedParse s (.jsonSettled i r)) := by
  obtain ⟨hb, hm, ht⟩ := h
  have hkeep : Inv (es ++ [.jsonSettled i r]) s :=
    ⟨hb, hm, fun t htm => (ht t htm).mono _⟩
  rcases hb with ⟨h1, h2⟩ | ⟨h1, k, hk, S, u, hc⟩
  · simpa [step, h2] using hkeep
  · obtain ⟨th, stage⟩ := k
    cases i with
    | succ n => simpa [step, hk] using hkeep
    | zero =>
      cases stage with
      | awaitingFetch => simpa [step, hk] using hkeep
      | awaitingJson =>
        have htm : ∀ t ∈ s.conversation, TurnFrom (es ++ [.jsonSettled 0 r]) t :=
          fun t htm => (ht t htm).mono _
        cases r with
        | rejected =>
          refine ⟨Or.inl ?_, ?_, ?_⟩ <;>
            (simp [step, hk, complete, tryAfterJson, catchBlock, finallyBlock, setContent,
              classListAdd] <;> assumption)
        | fulfilled data =>
          cases hres : truthyResult data with
          | none =>
            refine ⟨Or.inl ?_, ?_, ?_⟩ <;>
              (simp [step, hk, complete, tryAfterJson, finallyBlock, setContent, classListAdd,
                hres] <;> assumption)
          | some R =>
            obtain ⟨hdata, hR⟩ := truthyResult_eq_some hres
            have hconv : (step markedParse s (.jsonSettled 0 (.fulfilled data))).conversation
                = s.conversation ++ [⟨"model", R⟩] := by
              simp [step, hk, complete, tryAfterJson, finallyBlock, setContent, hres]
            refine ⟨Or.inl ?_, ?_, ?_⟩
            · simp [step, hk, complete, tryAfterJson, finallyBlock, setContent, hres]
            · rw [hconv, hc]
              rw [hc] at hm
              exact hm.push_model R
            · rw [hconv]
              intro t htmem
              simp only [List.mem_append, List.mem_singleton] at htmem
              rcases htmem with htmem | rfl
              · exact htm t htmem
              · exact ⟨hR, Or.inr ⟨rfl, 0, by simp [hdata]⟩⟩

theorem inv_run (markedParse : String → String) (es : List Event) :
    Inv es (run markedParse init es) := by
  induction es using List.reverseRecOn with
  | nil => exact inv_init
  | append_singleton es e ih =>
    rw [run_snoc]
    cases e with
    | submit x => exact inv_submit es _ x ih
    | fetchSettled i r => exact inv_fetchSettled markedParse es _ i r ih
    | jsonSettled i r => exact inv_jsonSettled markedParse es _ i r ih
theorem step_requests (markedParse : String → String) (s : ChatState) (e : Event) :
    (step markedParse s e).requests = s.requests ∨
      ∃ x : String, e = .submit x ∧ jsTrim x ≠ "" ∧
        (step markedParse s e).requests =
          s.requests ++ [chatRequest (s.conversation ++ [⟨"user", jsTrim x⟩])] := by
  cases e with
  | submit x =>
    by_cases hbusy : s.isFetching = true
    · left
      simp only [step]
      rw [submitHandler_busy { s with userInputValue := x } hbusy]
    · have hidle : s.isFetching = false := by simpa using hbusy
      by_cases hx : jsTrim x = ""
      · left
        simp [step, submitHandler, hidle, hx]
      · right
        refine ⟨x, rfl, hx, ?_⟩
        simp only [step]
        rw [submitHandler_accepted { s with userInputValue := x } hidle hx]
  | fetchSettled i r =>
    left
    simp only [step]
    rcases hk : s.suspended[i]? with _ | ⟨th, _ | _⟩
    · rfl
    · rcases r with _ | _ | _ <;> rfl
    · rfl
  | jsonSettled i r =>
    left
    simp only [step]
    rcases hk : s.suspended[i]? with _ | ⟨th, _ | _⟩
    · rfl
    · rfl
    · rcases r with _ | data
      · rfl
      · cases hres : truthyResult data <;>
          simp [complete, tryAfterJson, finallyBlock, setContent, classListAdd, hres]

theorem requests_run (markedParse : String → String) (es : List Event) :
    RequestsFrom es (run markedParse init es) := by
  induction es using List.reverseRecOn with
  | nil =>
    intro q hq
    simp [run, init] at hq
  | append_singleton es e ih =>
    rw [run_snoc]
    intro q hq t ht
    rcases step_requests markedParse (run markedParse init es) e with h | ⟨x, he, hx, h⟩
    · rw [h] at hq
      exact (ih q hq t ht).mono e
    · rw [h] at hq
      simp only [List.mem_append, List.mem_singleton] at hq
      rcases hq with hq | rfl
      · exact (ih q hq t ht).mono e
      · simp only [chatRequest, List.mem_append, List.mem_singleton] at ht
        rcases ht with ht | rfl
        · exact ((inv_run markedParse es).2.2 t ht).mono e
        · exact ⟨hx, Or.inl ⟨rfl, jsTrim_idem x, x, by simp [he], rfl⟩⟩

theorem submitHandlerOn_found (s : ChatState) :
    submitHandlerOn true s = .ok (submitHandler s) := by
  unfold submitHandlerOn submitHandler
  by_cases hb : s.isFetching = true
  · simp [hb]
  · by_cases hx : jsTrim s.userInputValue = ""
    · simp [hb, hx]
    · simp [hb, hx, addMessageToChatBoxOn]

theorem submitHandlerOn_missing (s : ChatState) (hidle : s.isFetching = false)
    (ht : jsTrim s.userInputValue ≠ "") :
    submitHandlerOn false s =
      .error { s with
        isFetching := true
        userInputDisabled := true
        sendButtonDisabled := true
        sendButtonHtml := loadingIcon } := by
  simp [submitHandlerOn, hidle, ht, addMessageToChatBoxOn]

/-! ## The claims -/

/-- C1: from an idle state with a non-blank input, a cycle whose outcome is a successful
response with non-empty result text `R` leaves the transcript extended by the user turn
(trimmed input) and the model turn holding `R` itself, and the placeholder holding
`markedParse R` as markup, without the `error` class. -/
theorem success_cycle_stores_raw_and_renders (markedParse : String → String) (s : ChatState)
    (R : String) (hidle : s.isFetching = false) (ht : jsTrim s.userInputValue ≠ "")
    (hR : R ≠ "") :
    (runCycle markedParse s (.success (some ⟨some R⟩))).conversation =
        s.conversation ++ [⟨"user", jsTrim s.userInputValue⟩, ⟨"model", R⟩] ∧
      (submitHandler s).chatBox[s.chatBox.length + 1]? = some thinkingElement ∧
      ∃ p, (runCycle markedParse s (.success (some ⟨some R⟩))).chatBox[s.chatBox.length + 1]?
            = some p ∧
        p.content = .html (markedParse R) ∧ "error" ∉ p.classes := by
  rw [runCycle_eq markedParse s _ hidle ht, submitHandler_accepted s hidle ht]
  refine ⟨?_, getElem?_append_pair _ _ _, _, getElem?_append_pair _ _ _, ?_, ?_⟩
  · simp [resultText_success R hR]
  · simp [finalPlaceholder, truthyResult, hR]
  · simp [finalPlaceholder, truthyResult, hR]

/-- Witness of C1: `Hello` answered by `**Hi**`. -/
theorem success_cycle_stores_raw_and_renders_witness :
    (helloState.isFetching = false ∧ jsTrim helloState.userInputValue ≠ "" ∧ "**Hi**" ≠ "") ∧
      ((runCycle sampleRenderer helloState (.success (some ⟨some "**Hi**"⟩))).conversation =
        helloState.conversation ++ [⟨"user", jsTrim helloState.userInputValue⟩, ⟨"model", "**Hi**"⟩] ∧
      (submitHandler helloState).chatBox[helloState.chatBox.length + 1]? = some thinkingElement ∧
      ∃ p, (runCycle sampleRenderer helloState
              (.success (some ⟨some "**Hi**"⟩))).chatBox[helloState.chatBox.length + 1]?
            = some p ∧
        p.content = .html (sampleRenderer "**Hi**") ∧ "error" ∉ p.classes) :=
  ⟨⟨by decide, by decide, by decide⟩,
    success_cycle_stores_raw_and_renders sampleRenderer helloState "**Hi**"
      (by decide) (by decide) (by decide)⟩

/-- C2: from an idle state with a non-blank input, a cycle with any outcome other than a
successful response with non-empty result text leaves the transcript exactly as the
handler left it when it pushed the user turn. -/
theorem failed_cycle_keeps_transcript (markedParse : String → String) (s : ChatState)
    (o : Outcome) (hidle : s.isFetching = false) (ht : jsTrim s.userInputValue ≠ "")
    (hfail : ∀ R : String, R ≠ "" → o ≠ .success (some ⟨some R⟩)) :
    (runCycle markedParse s o).conversation =
        s.conversation ++ [⟨"user", jsTrim s.userInputValue⟩] ∧
      (runCycle markedParse s o).conversation = (submitHandler s).conversation := by
  rw [runCycle_eq markedParse s o hidle ht, submitHandler_accepted s hidle ht]
  simp [(resultText_eq_none_iff o).mpr hfail]

/-- Witness of C2: `Hello` answered by a body without `result`. -/
theorem failed_cycle_keeps_transcript_witness :
    (helloState.isFetching = false ∧ jsTrim helloState.userInputValue ≠ "" ∧
        ∀ R : String, R ≠ "" → Outcome.success (some ⟨none⟩) ≠ .success (some ⟨some R⟩)) ∧
      ((runCycle sampleRenderer helloState (.success (some ⟨none⟩))).conversation =
        helloState.conversation ++ [⟨"user", jsTrim helloState.userInputValue⟩] ∧
      (runCycle sampleRenderer helloState (.success (some ⟨none⟩))).conversation =
        (submitHandler helloState).conversation) :=
  ⟨⟨by decide, by decide, by simp⟩,
    failed_cycle_keeps_transcript sampleRenderer helloState (.success (some ⟨none⟩))
      (by decide) (by decide) (by simp)⟩

/-- C3 as stated fails: on a page without the chat box, the accepted submit of `Hello`
ends its cycle by the exception of line 61, before the `try` block, with `isFetching`
true and no turn pushed; the following submit of `Again` returns at the first guard,
pushing no turn and issuing no request. -/
theorem busy_stuck_after_exception_before_try :
    (helloState.isFetching = false ∧ jsTrim helloState.userInputValue ≠ "") ∧
      submitHandlerOn false helloState = .error stuckState ∧
      runCycleOn false sampleRenderer helloState .fetchRejected = stuckState ∧
      stuckState.isFetching = true ∧
      jsTrim "Again" ≠ "" ∧
      submitHandlerOn false { stuckState with userInputValue := "Again" } =
        .ok { stuckState with userInputValue := "Again" } ∧
      stuckState.conversation = [] ∧ stuckState.requests = [] := by
  refine ⟨⟨by decide, by decide⟩, rfl, by decide, by decide, by decide, rfl, by decide,
    by decide⟩

/-- C3, amended: from an idle state with a non-blank input, if the handler reaches its
endpoint call (no exception on lines 75 to 84, before the `try` block), then whatever the
outcome of the call (fetch rejected, non-success status, body parse rejected, success
with or without a result), `isFetching` is false when the cycle has ended, and a
following submit with non-blank text reaches its call too, having pushed its user turn
and issued its request. -/
theorem busy_released_once_call_issued (chatBoxFound : Bool) (markedParse : String → String)
    (s called : ChatState) (o : Outcome) (hidle : s.isFetching = false)
    (ht : jsTrim s.userInputValue ≠ "")
    (hcall : submitHandlerOn chatBoxFound s = .ok called) :
    runCycleOn chatBoxFound markedParse s o = run markedParse called o.events ∧
      (run markedParse called o.events).isFetching = false ∧
      ∀ x : String, jsTrim x ≠ "" →
        ∃ next : ChatState,
          submitHandlerOn chatBoxFound
              { run markedParse called o.events with userInputValue := x } = .ok next ∧
            next.conversation =
              (run markedParse called o.events).conversation ++ [⟨"user", jsTrim x⟩] ∧
            next.requests = (run markedParse called o.events).requests ++
              [chatRequest
                ((run markedParse called o.events).conversation ++ [⟨"user", jsTrim x⟩])] := by
  cases chatBoxFound with
  | false =>
    rw [submitHandlerOn_missing s hidle ht] at hcall
    cases hcall
  | true =>
    rw [submitHandlerOn_found] at hcall
    cases hcall
    have hb : (run markedParse (submitHandler s) o.events).isFetching = false :=
      runCycle_isFetching markedParse s o hidle ht
    refine ⟨by simp [runCycleOn, submitHandlerOn_found], hb, fun x hx => ?_⟩
    refine ⟨_, submitHandlerOn_found _, ?_⟩
    rw [submitHandler_accepted
      { run markedParse (submitHandler s) o.events with userInputValue := x } hb hx]
    exact ⟨rfl, rfl⟩

/-- Witness of C3, amended: `Hello` on a page with the chat box, the call rejected, then
any further submit. -/
theorem busy_released_once_call_issued_witness :
    (helloState.isFetching = false ∧ jsTrim helloState.userInputValue ≠ "" ∧
        submitHandlerOn true helloState = .ok (submitHandler helloState)) ∧
      (runCycleOn true sampleRenderer helloState .fetchRejected =
          run sampleRenderer (submitHandler helloState) Outcome.fetchRejected.events ∧
        (run sampleRenderer (submitHandler helloState) Outcome.fetchRejected.events).isFetching
          = false ∧
        ∀ x : String, jsTrim x ≠ "" →
          ∃ next : ChatState,
            submitHandlerOn true
                { run sampleRenderer (submitHandler helloState) Outcome.fetchRejected.events with
                  userInputValue := x } = .ok next ∧
              next.conversation =
                (run sampleRenderer (submitHandler helloState)
                  Outcome.fetchRejected.events).conversation ++ [⟨"user", jsTrim x⟩] ∧
              next.requests =
                (run sampleRenderer (submitHandler helloState)
                  Outcome.fetchRejected.events).requests ++
                [chatRequest
                  ((run sampleRenderer (submitHandler helloState)
                    Outcome.fetchRejected.events).conversation ++ [⟨"user", jsTrim x⟩])]) :=
  ⟨⟨by decide, by decide, rfl⟩,
    busy_released_once_call_issued true sampleRenderer helloState (submitHandler helloState)
      .fetchRejected (by decide) (by decide) rfl⟩

/-- C4: in every state reached from the initial state by submits and settlements, at most
one invocation of the handler is suspended at its endpoint call, and one is suspended
exactly when `isFetching` is true. -/
theorem single_flight (markedParse : String → String) (es : List Event) :
    (run markedParse init es).suspended.length ≤ 1 ∧
      ((run markedParse init es).suspended ≠ [] ↔ (run markedParse init es).isFetching = true) := by
  obtain ⟨hb, _, _⟩ := inv_run markedParse es
  rcases hb with ⟨h1, h2⟩ | ⟨h1, k, hk, _⟩
  · simp [h1, h2]
  · simp [h1, hk]

/-- C5: while `isFetching` is true the handler returns at its first guard whatever the
input field holds: the state, and with it the transcript, the flag, the rendered
messages, the issued requests and the suspended invocations, is unchanged; a submit
event with any text leaves the state as it was but for the text in the input field. -/
theorem submit_while_busy_is_noop (markedParse : String → String) (s : ChatState)
    (hbusy : s.isFetching = true) :
    submitHandler s = s ∧
      ∀ x : String, step markedParse s (.submit x) = { s with userInputValue := x } :=
  ⟨submitHandler_busy s hbusy,
    fun x => submitHandler_busy { s with userInputValue := x } hbusy⟩

/-- Witness of C5: a second submit while the request for `Hello` is in flight. -/
theorem submit_while_busy_is_noop_witness :
    (submitHandler helloState).isFetching = true ∧
      (submitHandler (submitHandler helloState) = submitHandler helloState ∧
        ∀ x : String, step sampleRenderer (submitHandler helloState) (.submit x) =
          { submitHandler helloState with userInputValue := x }) :=
  ⟨by decide, submit_while_busy_is_noop sampleRenderer (submitHandler helloState) (by decide)⟩

/-- C6: from an idle state with a non-blank input the handler pushes exactly the turn
`{role: "user", text: trimmed input}`, and calls `fetch` exactly once, with the
transcript including that turn as body; one invocation is left suspended at the call. -/
theorem accepted_submit_pushes_turn_and_requests (s : ChatState)
    (hidle : s.isFetching = false) (ht : jsTrim s.userInputValue ≠ "") :
    (submitHandler s).conversation = s.conversation ++ [⟨"user", jsTrim s.userInputValue⟩] ∧
      (submitHandler s).requests =
        s.requests ++ [chatRequest (s.conversation ++ [⟨"user", jsTrim s.userInputValue⟩])] ∧
      (submitHandler s).suspended = ⟨s.chatBox.length + 1, .awaitingFetch⟩ :: s.suspended := by
  rw [submitHandler_accepted s hidle ht]
  exact ⟨rfl, rfl, rfl⟩

/-- Witness of C6: submitting `Hello` on the initial page. -/
theorem accepted_submit_pushes_turn_and_requests_witness :
    (helloState.isFetching = false ∧ jsTrim helloState.userInputValue ≠ "") ∧
      ((submitHandler helloState).conversation =
        helloState.conversation ++ [⟨"user", jsTrim helloState.userInputValue⟩] ∧
      (submitHandler helloState).requests =
        helloState.requests ++
          [chatRequest (helloState.conversation ++ [⟨"user", jsTrim helloState.userInputValue⟩])] ∧
      (submitHandler helloState).suspended =
        ⟨helloState.chatBox.length + 1, .awaitingFetch⟩ :: helloState.suspended) :=
  ⟨⟨by decide, by decide⟩,
    accepted_submit_pushes_turn_and_requests helloState (by decide) (by decide)⟩

/-- C7: in an idle state whose input is empty or holds only white space, the handler
returns at its second guard: the state, and with it the transcript, the flag, the
rendered messages and the issued requests, is unchanged. -/
theorem blank_submit_is_noop (s : ChatState) (hidle : s.isFetching = false)
    (hblank : ∀ c ∈ s.userInputValue.data, isJsWhiteSpace c = true) :
    submitHandler s = s ∧ (submitHandler s).isFetching = false := by
  have h : submitHandler s = s := by
    simp [submitHandler, hidle, jsTrim_eq_empty_of_all hblank]
  rw [h]
  exact ⟨rfl, hidle⟩

/-- Witness of C7: submitting three blanks on the initial page. -/
theorem blank_submit_is_noop_witness :
    (blankState.isFetching = false ∧
        ∀ c ∈ blankState.userInputValue.data, isJsWhiteSpace c = true) ∧
      (submitHandler blankState = blankState ∧ (submitHandler blankState).isFetching = false) :=
  ⟨⟨by decide, by decide⟩, blank_submit_is_noop blankState (by decide) (by decide)⟩

/-- C8: from an idle state with a non-blank input, whatever the outcome, the message
rendered as `Thinking...` no longer holds that text when the cycle has ended; it has
the `error` class exactly when the outcome is not a successful response with non-empty
result; on success it holds the rendered markup; it holds `Sorry, no response received.`
after a successful response with falsy body, missing result or empty result, and
`Failed to get response from server.` after a non-success status or a rejection. -/
theorem placeholder_finalised (markedParse : String → String) (s : ChatState) (o : Outcome)
    (hidle : s.isFetching = false) (ht : jsTrim s.userInputValue ≠ "") :
    (submitHandler s).chatBox[s.chatBox.length + 1]? = some thinkingElement ∧
      ∃ p, (runCycle markedParse s o).chatBox[s.chatBox.length + 1]? = some p ∧
        p.content ≠ .text "Thinking..." ∧
        ("error" ∈ p.classes ↔ ∀ R : String, R ≠ "" → o ≠ .success (some ⟨some R⟩)) ∧
        (∀ R : String, R ≠ "" → o = .success (some ⟨some R⟩) →
          p.content = .html (markedParse R)) ∧
        (o = .success none ∨ o = .success (some ⟨none⟩) ∨ o = .success (some ⟨some ""⟩) →
          p.content = .text "Sorry, no response received.") ∧
        (o = .nonSuccess ∨ o = .fetchRejected ∨ o = .jsonRejected →
          p.content = .text "Failed to get response from server.") := by
  rw [runCycle_eq markedParse s o hidle ht, submitHandler_accepted s hidle ht]
  refine ⟨getElem?_append_pair _ _ _, _, getElem?_append_pair _ _ _, ?_⟩
  cases o with
  | fetchRejected => simp [finalPlaceholder]
  | nonSuccess => simp [finalPlaceholder]
  | jsonRejected => simp [finalPlaceholder]
  | success data =>
    rcases data with _ | ⟨_ | r⟩
    · simp [finalPlaceholder, truthyResult]
    · simp [finalPlaceholder, truthyResult]
    · by_cases hr : r = ""
      · subst hr
        simp [finalPlaceholder, truthyResult]
        intro R hR h
        exact hR h.symm
      · simp [finalPlaceholder, truthyResult, hr]
        intro R _ h
        rw [h]

/-- Witness of C8: `Hello` with the body of the response failing to parse. -/
theorem placeholder_finalised_witness :
    (helloState.isFetching = false ∧ jsTrim helloState.userInputValue ≠ "") ∧
      ((submitHandler helloState).chatBox[helloState.chatBox.length + 1]? = some thinkingElement ∧
      ∃ p, (runCycle sampleRenderer helloState .jsonRejected).chatBox[
              helloState.chatBox.length + 1]? = some p ∧
        p.content ≠ .text "Thinking..." ∧
        ("error" ∈ p.classes ↔
          ∀ R : String, R ≠ "" → Outcome.jsonRejected ≠ .success (some ⟨some R⟩)) ∧
        (∀ R : String, R ≠ "" → Outcome.jsonRejected = .success (some ⟨some R⟩) →
          p.content = .html (sampleRenderer R)) ∧
        (Outcome.jsonRejected = .success none ∨ Outcome.jsonRejected = .success (some ⟨none⟩) ∨
            Outcome.jsonRejected = .success (some ⟨some ""⟩) →
          p.content = .text "Sorry, no response received.") ∧
        (Outcome.jsonRejected = .nonSuccess ∨ Outcome.jsonRejected = .fetchRejected ∨
            Outcome.jsonRejected = .jsonRejected →
          p.content = .text "Failed to get response from server.")) :=
  ⟨⟨by decide, by decide⟩,
    placeholder_finalised sampleRenderer helloState .jsonRejected (by decide) (by decide)⟩

/-- C9: in every state reached from the initial state by submits and settlements, each
model turn of the transcript has a predecessor and that predecessor is a user turn, so
no transcript starts with a model turn or holds two model turns in a row; two user turns
in a row do occur, after a failed cycle. -/
theorem model_turn_follows_user_turn (markedParse : String → String) :
    (∀ (es : List Event) (i : Nat) (t : Turn),
        (run markedParse init es).conversation[i]? = some t → t.role = "model" →
        ∃ (j : Nat) (u : Turn), i = j + 1 ∧
          (run markedParse init es).conversation[j]? = some u ∧ u.role = "user") ∧
      (run markedParse init
          [.submit "Hello", .fetchSettled 0 .rejected, .submit "Hello"]).conversation =
        [⟨"user", "Hello"⟩, ⟨"user", "Hello"⟩] :=
  ⟨fun es i t hi hmodel => (inv_run markedParse es).2.1 i t hi hmodel, rfl⟩

/-- Witness of C9: the model turn at position 1 of the sample trace. -/
theorem model_turn_follows_user_turn_witness :
    ((run sampleRenderer init sampleTrace).conversation[1]? = some ⟨"model", "**Hi**"⟩ ∧
        (⟨"model", "**Hi**"⟩ : Turn).role = "model") ∧
      ∃ (j : Nat) (u : Turn), 1 = j + 1 ∧
        (run sampleRenderer init sampleTrace).conversation[j]? = some u ∧ u.role = "user" :=
  ⟨⟨by decide, by decide⟩,
    (model_turn_follows_user_turn sampleRenderer).1 sampleTrace 1 ⟨"model", "**Hi**"⟩
      (by decide) (by decide)⟩

/-- C10: in every state reached from the initial state by the events `es`, each turn of
the transcript and of every request body has non-empty text and is a user or a model
turn; a user turn holds the trimmed text of a submit of `es` and equals its own trim; a
model turn holds, as received, the `result` of a body parsed in `es`, and so need not
equal its own trim. -/
theorem turn_texts_nonempty (markedParse : String → String) :
    (∀ (es : List Event) (t : Turn),
        (t ∈ (run markedParse init es).conversation ∨
          ∃ q ∈ (run markedParse init es).requests, t ∈ q.body) →
        t.text ≠ "" ∧
          ((t.role = "user" ∧ jsTrim t.text = t.text ∧
              ∃ x : String, Event.submit x ∈ es ∧ t.text = jsTrim x) ∨
            (t.role = "model" ∧
              ∃ i : Nat, Event.jsonSettled i (.fulfilled (some ⟨some t.text⟩)) ∈ es))) ∧
      ((run markedParse init
          [.submit "Hello", .fetchSettled 0 (.fulfilled true),
            .jsonSettled 0 (.fulfilled (some ⟨some " Hi "⟩))]).conversation =
          [⟨"user", "Hello"⟩, ⟨"model", " Hi "⟩] ∧
        jsTrim " Hi " ≠ " Hi ") := by
  refine ⟨fun es t ht => ?_, rfl, by decide⟩
  rcases ht with ht | ⟨q, hq, ht⟩
  · exact (inv_run markedParse es).2.2 t ht
  · exact requests_run markedParse es q hq t ht

/-- Witness of C10: the user turn `Again` of the sample trace. -/
theorem turn_texts_nonempty_witness :
    (⟨"user", "Again"⟩ ∈ (run sampleRenderer init sampleTrace).conversation ∨
        ∃ q ∈ (run sampleRenderer init sampleTrace).requests, ⟨"user", "Again"⟩ ∈ q.body) ∧
      ((⟨"user", "Again"⟩ : Turn).text ≠ "" ∧
        (((⟨"user", "Again"⟩ : Turn).role = "user" ∧
            jsTrim (⟨"user", "Again"⟩ : Turn).text = (⟨"user", "Again"⟩ : Turn).text ∧
            ∃ x : String, Event.submit x ∈ sampleTrace ∧
              (⟨"user", "Again"⟩ : Turn).text = jsTrim x) ∨
          ((⟨"user", "Again"⟩ : Turn).role = "model" ∧
            ∃ i : Nat, Event.jsonSettled i
              (.fulfilled (some ⟨some (⟨"user", "Again"⟩ : Turn).text⟩)) ∈ sampleTrace))) :=
  ⟨Or.inl (by decide),
    (turn_texts_nonempty sampleRenderer).1 sampleTrace ⟨"user", "Again"⟩ (Or.inl (by decide))⟩

end ChatClient
